import Mathlib

/-!
Shallow embedding of `skbel/bnn/models.py`.

The module assembles Keras/TensorFlow-Probability models from configuration
parameters.  The external framework (tensors, training, sampling) is out of
scope; what the source actually computes in this file is the *architecture
specification* of each model (the ordered list of layers with their units,
activations and names, the optimizer and the compiled loss), together with the
Python-level control flow on the `n_hidden` argument (list-length validation,
scalar expansion, list indexing) which can raise Python exceptions.

We embed:
  * a `Model` as the configuration the builder functions construct;
  * Python exceptions as an `Except PyError` result;
  * `n_hidden : int or list` as the sum type `NHidden`;
  * Python list comprehension over `range(n)` with possibly-raising body as
    left-to-right monadic mapping (`exceptMapList`), aborting at the first
    exception exactly as Python does;
  * the `PBNN` estimator as explicit state passing: a method that may mutate
    `self` returns the updated instance together with its Python return value.

`kl_weight` is a float that is only stored, never computed with; it is
modelled as a rational.  Framework operations used by `PBNN` methods
(`model.fit`, `model(X)`, `.sample`, `.stddev`, `model.evaluate`) are external
collaborators and are abstracted as the fields of `KerasModelOps`.
-/

/-- Python exceptions that the embedded code can raise. -/
inductive PyError : Type where
  | valueError (msg : String)
  | typeError (msg : String)
  | indexError (msg : String)
deriving DecidableEq, Repr

/-- Activation functions used by the layers in this module. -/
inductive Activation : Type where
  | relu
  | linear
deriving DecidableEq, Repr

/-- Layer specifications occurring in the assembled models.  The
`DenseVariational` layers in the source always pass the same constructors
(`make_prior_fn=prior_trainable`, `make_posterior_fn=posterior_mean_field`);
these are recorded as the two string fields.  The `MultivariateNormalTriL`
output layer carries its activity regularizer as the pair
(prior event shape, KL weight) when present. -/
inductive Layer : Type where
  | inputLayer (shape : Nat) (name : String)
  | denseVariational (units : Nat) (kl_weight : Rat)
      (make_prior_fn : String) (make_posterior_fn : String)
      (activation : Activation) (name : String)
  | dense (units : Nat) (activation : Activation) (name : String)
  | multivariateNormalTriL (event_shape : Nat)
      (activity_regularizer : Option (Nat × Rat)) (name : String)
deriving DecidableEq, Repr

/-- Optimizers used by the compile calls in this module. -/
inductive Optimizer : Type where
  | adam
deriving DecidableEq, Repr

/-- Loss functions.  `neg_log_likelihood` and `MeanSquaredError` appear in the
source; `custom n` stands for an arbitrary user-supplied loss callable. -/
inductive Loss : Type where
  | neg_log_likelihood
  | mean_squared_error
  | custom (id : Nat)
deriving DecidableEq, Repr

/-- A compiled Keras model, as far as this module determines it: the layer
stack handed to `tfk.Sequential`, the model name, and the optimizer and loss
passed to `model.compile`. -/
structure Model : Type where
  layers : List Layer
  optimizer : Optimizer
  loss : Loss
  name : String
deriving DecidableEq, Repr

/-- The `n_hidden : int or list` argument. -/
inductive NHidden : Type where
  | scalar (h : Nat)
  | list (hs : List Nat)
deriving DecidableEq, Repr

/-- Python subscripting `n_hidden[i]` for a nonnegative index: on an `int` it
raises `TypeError`, on a list it raises `IndexError` when out of range. -/
def pyGetItem : NHidden → Nat → Except PyError Nat
  | NHidden.scalar _, _ =>
      Except.error (PyError.typeError "int object is not subscriptable")
  | NHidden.list hs, i =>
      match hs.get? i with
      | some v => Except.ok v
      | none => Except.error (PyError.indexError "list index out of range")

/-- Left-to-right effectful map, aborting at the first exception: the meaning
of a Python list comprehension whose body may raise. -/
def exceptMapList {α β : Type} (f : α → Except PyError β) : List α → Except PyError (List β)
  | [] => Except.ok []
  | a :: t => do
      let b ← f a
      let bs ← exceptMapList f t
      pure (b :: bs)

/-- Size of the parameter vector of `tfp.layers.MultivariateNormalTriL` for
event size `d`: a mean vector plus a lower-triangular scale matrix. -/
def MultivariateNormalTriL.params_size (d : Nat) : Nat :=
  d + d * (d + 1) / 2

/-- Whether an `Except` computation succeeded. -/
def exceptIsOk {ε α : Type} : Except ε α → Bool
  | Except.ok _ => true
  | Except.error _ => false

/-- Body of the hidden-layer comprehension
`tfp.layers.DenseVariational(n_hidden[i], make_prior_fn=prior_trainable,
make_posterior_fn=posterior_mean_field, kl_weight=kl_weight,
activation="relu", name=f"dense{i + 1}")`, which appears verbatim in both
`probabilistic_variational_model` and `variational_model`. -/
def hiddenLayer (n_hidden : NHidden) (kl_weight : Rat) (i : Nat) :
    Except PyError Layer := do
  let w ← pyGetItem n_hidden i
  pure (Layer.denseVariational w kl_weight "prior_trainable"
    "posterior_mean_field" Activation.relu ("dense" ++ toString (i + 1)))

/-- Embedding of `probabilistic_variational_model` (models.py lines 26-129).
The loss defaults to `neg_log_likelihood` when `None`; the hidden layers are
built by the comprehension `[DenseVariational(n_hidden[i], ...) for i in
range(n_layers)]` with no validation of `n_hidden`; the output block is a
`DenseVariational` head of `MultivariateNormalTriL.params_size output_shape`
units followed by the `MultivariateNormalTriL` distribution layer with a KL
regularizer; the model is compiled with Adam and the resolved loss.
Python default arguments (`n_layers=2`, `loss=None`) are passed explicitly
by callers of the embedding. -/
def probabilistic_variational_model (input_shape output_shape : Nat)
    (n_hidden : NHidden) (kl_weight : Rat) (n_layers : Nat)
    (loss : Option Loss) : Except PyError Model := do
  let loss := match loss with
    | none => Loss.neg_log_likelihood
    | some l => l
  let variational_layers ← exceptMapList (hiddenLayer n_hidden kl_weight)
    (List.range n_layers)
  pure (Model.mk
    ([Layer.inputLayer input_shape "input"] ++ variational_layers ++
      [Layer.denseVariational (MultivariateNormalTriL.params_size output_shape)
        kl_weight "prior_trainable" "posterior_mean_field" Activation.linear
        "dense_output",
       Layer.multivariateNormalTriL output_shape (some (output_shape, kl_weight))
        "output"])
    Optimizer.adam loss "model")

/-- Embedding of `variational_model` (models.py lines 186-243).  A list
`n_hidden` whose length differs from `n_layers` raises `ValueError`; a scalar
is expanded to `[n_hidden] * n_layers`; the hidden layers are the same
comprehension as in `probabilistic_variational_model`; the output is a plain
`Dense` layer and the model is compiled with Adam and mean squared error. -/
def variational_model (input_shape output_shape : Nat)
    (n_hidden : NHidden) (kl_weight : Rat) (n_layers : Nat) :
    Except PyError Model := do
  let n_hidden ← match n_hidden with
    | NHidden.list hs =>
        if hs.length ≠ n_layers then
          Except.error (PyError.valueError "n_hidden must be a list of length n_layers")
        else
          pure (NHidden.list hs)
    | NHidden.scalar h =>
        pure (NHidden.list (List.replicate n_layers h))
  let variational_layers ← exceptMapList (hiddenLayer n_hidden kl_weight)
    (List.range n_layers)
  pure (Model.mk
    ([Layer.inputLayer input_shape "input"] ++ variational_layers ++
      [Layer.dense output_shape Activation.linear "output"])
    Optimizer.adam Loss.mean_squared_error "model")

/-- External Keras/TFP operations used by the `PBNN` methods, abstracted over
the representation types of a materialized model `M`, input data `X`, target
data `Y`, a predicted distribution `D`, a sample batch `S` and an evaluation
score `E`.  `fitModel` takes epochs, batch size and verbosity and returns the
trained model state. -/
structure KerasModelOps (M X Y D S E : Type) : Type where
  fitModel : M → X → Y → Nat → Nat → Nat → M
  callModel : M → X → D
  sampleDist : D → Nat → S
  stddevDist : D → S
  evaluateModel : M → X → Y → Nat → E

/-- The `PBNN` estimator state: the constructor parameters stored on `self`
plus the underlying Keras model state of abstract type `M`. -/
structure PBNN (M : Type) : Type where
  input_shape : Nat
  output_shape : Nat
  n_hidden : NHidden
  kl_weight : Rat
  n_layers : Nat
  epochs : Nat
  batch_size : Nat
  verbose : Nat
  model : M

/-- Embedding of `PBNN.__init__`: stores the parameters and builds the model
with `probabilistic_variational_model` (loss argument omitted, hence `none`).
`materialize` is the external step turning the architecture into a live
Keras model. -/
def PBNN.init {M : Type} (materialize : Model → M)
    (input_shape output_shape : Nat) (n_hidden : NHidden) (kl_weight : Rat)
    (n_layers epochs batch_size verbose : Nat) : Except PyError (PBNN M) := do
  let m ← probabilistic_variational_model input_shape output_shape n_hidden
    kl_weight n_layers none
  pure (PBNN.mk input_shape output_shape n_hidden kl_weight n_layers epochs
    batch_size verbose (materialize m))

/-- Embedding of `PBNN.fit`: trains the underlying model with the stored
epochs, batch size and verbosity, and returns `self`.  The pair is
(state of `self` after the call, Python return value). -/
def PBNN.fit {M X Y D S E : Type} (ops : KerasModelOps M X Y D S E)
    (self : PBNN M) (Xd : X) (y : Y) : PBNN M × PBNN M :=
  let trained := PBNN.mk self.input_shape self.output_shape self.n_hidden
    self.kl_weight self.n_layers self.epochs self.batch_size self.verbose
    (ops.fitModel self.model Xd y self.epochs self.batch_size self.verbose)
  (trained, trained)

/-- Embedding of `PBNN.predict`: `self.model(X).sample(n_samples)`; the Python
default is `n_samples=100`, passed explicitly by callers of the embedding.
No attribute of `self` is assigned, so the returned state is `self`. -/
def PBNN.predict {M X Y D S E : Type} (ops : KerasModelOps M X Y D S E)
    (self : PBNN M) (Xd : X) (n_samples : Nat) : PBNN M × S :=
  (self, ops.sampleDist (ops.callModel self.model Xd) n_samples)

/-- Embedding of `PBNN.predict_std`: `self.model(X).stddev()`. -/
def PBNN.predict_std {M X Y D S E : Type} (ops : KerasModelOps M X Y D S E)
    (self : PBNN M) (Xd : X) : PBNN M × S :=
  (self, ops.stddevDist (ops.callModel self.model Xd))

/-- Embedding of `PBNN.score`: `self.model.evaluate(X, y, verbose=self.verbose)`. -/
def PBNN.score {M X Y D S E : Type} (ops : KerasModelOps M X Y D S E)
    (self : PBNN M) (Xd : X) (y : Y) : PBNN M × E :=
  (self, ops.evaluateModel self.model Xd y self.verbose)

/-- Embedding of `PBNN.transform`: `return self.predict(X)`, with `n_samples`
left at its Python default of 100. -/
def PBNN.transform {M X Y D S E : Type} (ops : KerasModelOps M X Y D S E)
    (self : PBNN M) (Xd : X) : PBNN M × S :=
  PBNN.predict ops self Xd 100

/-- Embedding of `PBNN.fit_transform`: `return self.fit(X, y).transform(X)`.
`fit` returns `self`, and `transform` is invoked on that returned object. -/
def PBNN.fit_transform {M X Y D S E : Type} (ops : KerasModelOps M X Y D S E)
    (self : PBNN M) (Xd : X) (y : Y) : PBNN M × S :=
  PBNN.transform ops (PBNN.fit ops self Xd y).2 Xd

/-- Embedding of `PBNN.inverse_transform`: `return y`, touching no attribute
of `self`. -/
def PBNN.inverse_transform {M Y : Type} (self : PBNN M) (y : Y) : PBNN M × Y :=
  (self, y)

/-! ### Helper lemmas about the `Except` embedding -/

/-- Binding a successful computation runs the continuation. -/
theorem exceptBind_ok {ε α β : Type} (v : α) (g : α → Except ε β) :
    (Except.ok v : Except ε α) >>= g = g v := rfl

/-- Binding a raised exception short-circuits. -/
theorem exceptBind_error {ε α β : Type} (e : ε) (g : α → Except ε β) :
    (Except.error e : Except ε α) >>= g = Except.error e := rfl

/-- Mapping pointwise-equal bodies over the same list gives the same result. -/
theorem exceptMapList_congr {α β : Type} (f g : α → Except PyError β)
    (l : List α) (h : ∀ x ∈ l, f x = g x) :
    exceptMapList f l = exceptMapList g l := by
  induction l with
  | nil => rfl
  | cons a t ih =>
      simp only [exceptMapList]
      rw [h a (List.mem_cons_self a t),
        ih (fun x hx => h x (List.mem_cons_of_mem a hx))]

/-- A comprehension whose body succeeds on every element succeeds. -/
theorem exceptMapList_isOk {α β : Type} (f : α → Except PyError β)
    (l : List α) (h : ∀ x ∈ l, exceptIsOk (f x) = true) :
    exceptIsOk (exceptMapList f l) = true := by
  induction l with
  | nil => rfl
  | cons a t ih =>
      have ha := h a (List.mem_cons_self a t)
      cases hfa : f a with
      | error e => rw [hfa] at ha; exact absurd ha (by simp [exceptIsOk])
      | ok v =>
          have ht := ih (fun x hx => h x (List.mem_cons_of_mem a hx))
          cases hmt : exceptMapList f t with
          | error e => rw [hmt] at ht; exact absurd ht (by simp [exceptIsOk])
          | ok vs =>
              simp only [exceptMapList, hfa, hmt, exceptBind_ok]
              rfl

/-- If every element either succeeds or raises the same exception `e`, and at
least one element raises, the comprehension raises `e`: Python evaluates left
to right and aborts at the first raise. -/
theorem exceptMapList_error {α β : Type} (f : α → Except PyError β)
    (e : PyError) (l : List α)
    (hall : ∀ x ∈ l, exceptIsOk (f x) = true ∨ f x = Except.error e)
    (hex : ∃ x, x ∈ l ∧ f x = Except.error e) :
    exceptMapList f l = Except.error e := by
  induction l with
  | nil =>
      obtain ⟨x, hx, _⟩ := hex
      exact absurd hx (List.not_mem_nil x)
  | cons a t ih =>
      cases hfa : f a with
      | error e2 =>
          rcases hall a (List.mem_cons_self a t) with h1 | h2
          · rw [hfa] at h1; exact absurd h1 (by simp [exceptIsOk])
          · rw [hfa] at h2
            injection h2 with he
            subst he
            simp only [exceptMapList, hfa, exceptBind_error]
      | ok v =>
          obtain ⟨x, hx, hfx⟩ := hex
          have hxt : x ∈ t := by
            rcases List.mem_cons.mp hx with rfl | hmem
            · rw [hfa] at hfx; exact absurd hfx (by simp)
            · exact hmem
          simp only [exceptMapList, hfa, exceptBind_ok]
          rw [ih (fun y hy => hall y (List.mem_cons_of_mem a hy)) ⟨x, hxt, hfx⟩]
          rfl

/-- Subscripting a list within bounds succeeds. -/
theorem pyGetItem_list_isOk {hs : List Nat} {i : Nat} (h : i < hs.length) :
    exceptIsOk (pyGetItem (NHidden.list hs) i) = true := by
  simp only [pyGetItem]
  cases hq : hs.get? i with
  | none => exact absurd (List.get?_eq_none.mp hq) (by omega)
  | some v => rfl

/-- Subscripting a list out of bounds raises `IndexError`. -/
theorem pyGetItem_list_error {hs : List Nat} {i : Nat} (h : hs.length ≤ i) :
    pyGetItem (NHidden.list hs) i
      = Except.error (PyError.indexError "list index out of range") := by
  simp only [pyGetItem]
  rw [List.get?_eq_none.mpr h]

/-- Subscripting a truncated list agrees with the original below the cut. -/
theorem pyGetItem_take {hs : List Nat} {n i : Nat} (h : i < n) :
    pyGetItem (NHidden.list (hs.take n)) i = pyGetItem (NHidden.list hs) i := by
  simp only [pyGetItem, List.get?_eq_getElem?]
  rw [List.getElem?_take_of_lt h]

/-- The hidden-layer body succeeds when its subscript succeeds. -/
theorem hiddenLayer_isOk {nh : NHidden} {kl : Rat} {i : Nat}
    (h : exceptIsOk (pyGetItem nh i) = true) :
    exceptIsOk (hiddenLayer nh kl i) = true := by
  cases hp : pyGetItem nh i with
  | error e => rw [hp] at h; exact absurd h (by simp [exceptIsOk])
  | ok v => simp [hiddenLayer, hp, exceptBind_ok, exceptIsOk]

/-- The hidden-layer body propagates the exception of its subscript. -/
theorem hiddenLayer_error {nh : NHidden} {kl : Rat} {i : Nat} {e : PyError}
    (h : pyGetItem nh i = Except.error e) :
    hiddenLayer nh kl i = Except.error e := by
  simp only [hiddenLayer, h, exceptBind_error]

/-- The hidden-layer body only inspects `n_hidden` through the subscript. -/
theorem hiddenLayer_congr {nh nh2 : NHidden} {kl : Rat} {i : Nat}
    (h : pyGetItem nh i = pyGetItem nh2 i) :
    hiddenLayer nh kl i = hiddenLayer nh2 kl i := by
  simp only [hiddenLayer, h]

/-! ### Claim theorems -/

/-- C1: for every call to `variational_model` where `n_hidden` is a list whose
length differs from `n_layers`, the function raises a `ValueError` with the
message "n_hidden must be a list of length n_layers", and no model is
constructed or returned. -/
theorem variational_model_length_mismatch_value_error
    (input_shape output_shape : Nat) (hs : List Nat) (kl_weight : Rat)
    (n_layers : Nat) (h : hs.length ≠ n_layers) :
    variational_model input_shape output_shape (NHidden.list hs) kl_weight
        n_layers
      = Except.error
          (PyError.valueError "n_hidden must be a list of length n_layers") := by
  simp [variational_model, h, exceptBind_error]

/-- Witness for C1 at the concrete input `n_hidden = [3]`, `n_layers = 2`. -/
theorem variational_model_length_mismatch_value_error_witness :
    ([3] : List Nat).length ≠ 2 ∧
    variational_model 1 1 (NHidden.list [3]) 0 2
      = Except.error
          (PyError.valueError "n_hidden must be a list of length n_layers") :=
  ⟨by decide, variational_model_length_mismatch_value_error 1 1 [3] 0 2 (by decide)⟩

/-- C3: for every scalar hidden-unit count `h` and every `n_layers`, calling
`variational_model` with the scalar expands it to the uniform list
`[h] * n_layers`, so the resulting model equals the one produced by calling
`variational_model` with that uniform list. -/
theorem variational_model_scalar_expansion
    (input_shape output_shape h_units : Nat) (kl_weight : Rat) (n_layers : Nat) :
    variational_model input_shape output_shape (NHidden.scalar h_units)
        kl_weight n_layers
      = variational_model input_shape output_shape
          (NHidden.list (List.replicate n_layers h_units)) kl_weight n_layers := by
  simp [variational_model]

/-- C4 (supporting evaluation): at the failing input
`probabilistic_variational_model(1, 1, n_hidden=3, kl_weight=0, n_layers=2)`
the code raises `TypeError` on the subscript `n_hidden[0]` instead of
expanding the scalar as the documented `int or list` parameter promises. -/
theorem probabilistic_variational_model_scalar_type_error :
    probabilistic_variational_model 1 1 (NHidden.scalar 3) 0 2 none
      = Except.error (PyError.typeError "int object is not subscriptable") := rfl

/-- C2 counterexample: `probabilistic_variational_model` called with the
three-element list `[3, 3, 3]` and `n_layers = 2` — a hidden-unit list whose
length differs from the declared layer count — raises nothing and builds a
model from the first two entries, refuting the claim that every mismatched
list is rejected with a configuration error. -/
theorem probabilistic_variational_model_accepts_long_list :
    probabilistic_variational_model 1 1 (NHidden.list [3, 3, 3]) 0 2 none
      = Except.ok (Model.mk
          [Layer.inputLayer 1 "input",
           Layer.denseVariational 3 0 "prior_trainable" "posterior_mean_field"
             Activation.relu "dense1",
           Layer.denseVariational 3 0 "prior_trainable" "posterior_mean_field"
             Activation.relu "dense2",
           Layer.denseVariational 2 0 "prior_trainable" "posterior_mean_field"
             Activation.linear "dense_output",
           Layer.multivariateNormalTriL 1 (some (1, 0)) "output"]
          Optimizer.adam Loss.neg_log_likelihood "model") := rfl

/-- C2 as amended: `probabilistic_variational_model` performs no length
validation; a hidden-unit list strictly shorter than `n_layers` makes the
hidden-layer comprehension fail with an `IndexError` ("list index out of
range"), not a descriptive configuration error, and no model is built. -/
theorem probabilistic_variational_model_short_list_index_error
    (input_shape output_shape : Nat) (hs : List Nat) (kl_weight : Rat)
    (n_layers : Nat) (loss : Option Loss) (h : hs.length < n_layers) :
    probabilistic_variational_model input_shape output_shape (NHidden.list hs)
        kl_weight n_layers loss
      = Except.error (PyError.indexError "list index out of range") := by
  have hmap : exceptMapList (hiddenLayer (NHidden.list hs) kl_weight)
      (List.range n_layers)
      = Except.error (PyError.indexError "list index out of range") := by
    apply exceptMapList_error
    · intro x _
      by_cases hlt : x < hs.length
      · exact Or.inl (hiddenLayer_isOk (pyGetItem_list_isOk hlt))
      · exact Or.inr (hiddenLayer_error (pyGetItem_list_error (by omega)))
    · exact ⟨hs.length, List.mem_range.mpr h,
        hiddenLayer_error (pyGetItem_list_error (le_refl hs.length))⟩
  cases loss <;>
    simp [probabilistic_variational_model, hmap, exceptBind_error]

/-- Witness for the amended C2 at the concrete input `n_hidden = [3]`,
`n_layers = 2`. -/
theorem probabilistic_variational_model_short_list_index_error_witness :
    ([3] : List Nat).length < 2 ∧
    probabilistic_variational_model 1 1 (NHidden.list [3]) 0 2 none
      = Except.error (PyError.indexError "list index out of range") :=
  ⟨by decide,
    probabilistic_variational_model_short_list_index_error 1 1 [3] 0 2 none
      (by decide)⟩

/-- C8: a hidden-unit list strictly longer than `n_layers` raises no error in
`probabilistic_variational_model`: the call builds the same model as with the
list truncated to its first `n_layers` entries, and it succeeds. -/
theorem probabilistic_variational_model_surplus_hidden_ignored
    (input_shape output_shape : Nat) (hs : List Nat) (kl_weight : Rat)
    (n_layers : Nat) (loss : Option Loss) (h : n_layers < hs.length) :
    probabilistic_variational_model input_shape output_shape (NHidden.list hs)
        kl_weight n_layers loss
      = probabilistic_variational_model input_shape output_shape
          (NHidden.list (hs.take n_layers)) kl_weight n_layers loss
    ∧ exceptIsOk (probabilistic_variational_model input_shape output_shape
        (NHidden.list hs) kl_weight n_layers loss) = true := by
  have hcong : exceptMapList (hiddenLayer (NHidden.list hs) kl_weight)
        (List.range n_layers)
      = exceptMapList (hiddenLayer (NHidden.list (hs.take n_layers)) kl_weight)
        (List.range n_layers) := by
    apply exceptMapList_congr
    intro x hx
    exact (hiddenLayer_congr (pyGetItem_take (List.mem_range.mp hx))).symm
  have hok : exceptIsOk (exceptMapList (hiddenLayer (NHidden.list hs) kl_weight)
      (List.range n_layers)) = true := by
    apply exceptMapList_isOk
    intro x hx
    have hx2 := List.mem_range.mp hx
    exact hiddenLayer_isOk (pyGetItem_list_isOk (by omega))
  constructor
  · cases loss <;> simp [probabilistic_variational_model, hcong]
  · cases hm : exceptMapList (hiddenLayer (NHidden.list hs) kl_weight)
        (List.range n_layers) with
    | error e => rw [hm] at hok; exact absurd hok (by simp [exceptIsOk])
    | ok vl =>
        cases loss <;>
          simp [probabilistic_variational_model, hm, exceptBind_ok, exceptIsOk]

/-- Witness for C8 at the concrete input `n_hidden = [3, 4, 5]`,
`n_layers = 2`. -/
theorem probabilistic_variational_model_surplus_hidden_ignored_witness :
    2 < ([3, 4, 5] : List Nat).length ∧
    (probabilistic_variational_model 1 1 (NHidden.list [3, 4, 5]) 0 2 none
       = probabilistic_variational_model 1 1
           (NHidden.list (([3, 4, 5] : List Nat).take 2)) 0 2 none
     ∧ exceptIsOk (probabilistic_variational_model 1 1
         (NHidden.list [3, 4, 5]) 0 2 none) = true) :=
  ⟨by decide,
    probabilistic_variational_model_surplus_hidden_ignored 1 1 [3, 4, 5] 0 2
      none (by decide)⟩

/-- C10: whenever `probabilistic_variational_model` returns a model, that
model is compiled with the loss argument when one was supplied and with
`neg_log_likelihood` when the argument was omitted or `None`. -/
theorem probabilistic_variational_model_default_loss
    (input_shape output_shape : Nat) (n_hidden : NHidden) (kl_weight : Rat)
    (n_layers : Nat) (loss : Option Loss) (m : Model)
    (h : probabilistic_variational_model input_shape output_shape n_hidden
        kl_weight n_layers loss = Except.ok m) :
    m.loss = loss.getD Loss.neg_log_likelihood := by
  cases hm : exceptMapList (hiddenLayer n_hidden kl_weight)
      (List.range n_layers) with
  | error e =>
      cases loss <;>
        simp [probabilistic_variational_model, hm, exceptBind_error] at h
  | ok vl =>
      cases loss <;>
        · simp [probabilistic_variational_model, hm, exceptBind_ok] at h
          simp [← h]

/-- Witness for C10: the model built at `n_hidden = [3]`, `n_layers = 1` with
the loss omitted is compiled with `neg_log_likelihood`. -/
theorem probabilistic_variational_model_default_loss_witness :
    (Model.mk
      [Layer.inputLayer 1 "input",
       Layer.denseVariational 3 0 "prior_trainable" "posterior_mean_field"
         Activation.relu "dense1",
       Layer.denseVariational 2 0 "prior_trainable" "posterior_mean_field"
         Activation.linear "dense_output",
       Layer.multivariateNormalTriL 1 (some (1, 0)) "output"]
      Optimizer.adam Loss.neg_log_likelihood "model").loss
      = (none : Option Loss).getD Loss.neg_log_likelihood :=
  probabilistic_variational_model_default_loss 1 1 (NHidden.list [3]) 0 1 none
    (Model.mk
      [Layer.inputLayer 1 "input",
       Layer.denseVariational 3 0 "prior_trainable" "posterior_mean_field"
         Activation.relu "dense1",
       Layer.denseVariational 2 0 "prior_trainable" "posterior_mean_field"
         Activation.linear "dense_output",
       Layer.multivariateNormalTriL 1 (some (1, 0)) "output"]
      Optimizer.adam Loss.neg_log_likelihood "model") rfl

/-- C5: for every `PBNN` instance (fitted or not) and every input `y`,
`inverse_transform` returns `y` itself and leaves the estimator state
unchanged. -/
theorem PBNN_inverse_transform_identity {M Y : Type} (p : PBNN M) (y : Y) :
    PBNN.inverse_transform p y = (p, y) := rfl

/-- C6: for every `PBNN` instance and input `X`, `transform` returns exactly
what `predict` returns at its default sample count of 100, and leaves the
estimator state unchanged. -/
theorem PBNN_transform_delegates_to_predict {M X Y D S E : Type}
    (ops : KerasModelOps M X Y D S E) (p : PBNN M) (Xd : X) :
    PBNN.transform ops p Xd = PBNN.predict ops p Xd 100
    ∧ (PBNN.transform ops p Xd).1 = p :=
  ⟨rfl, rfl⟩

/-- C7: for every `PBNN` instance and inputs `X`, `y`, `fit_transform` leaves
the estimator in the state produced by `fit` and returns the value of
`transform` applied to that fitted estimator. -/
theorem PBNN_fit_transform_is_fit_then_transform {M X Y D S E : Type}
    (ops : KerasModelOps M X Y D S E) (p : PBNN M) (Xd : X) (y : Y) :
    PBNN.fit_transform ops p Xd y
      = ((PBNN.fit ops p Xd y).1,
         (PBNN.transform ops (PBNN.fit ops p Xd y).1 Xd).2) := rfl

/-- C9: for every `PBNN` instance and inputs `X`, `y`, the value returned by
`fit` is the (trained) instance itself, so calls chain as
`fit(X, y).transform(X)`. -/
theorem PBNN_fit_returns_self {M X Y D S E : Type}
    (ops : KerasModelOps M X Y D S E) (p : PBNN M) (Xd : X) (y : Y) :
    (PBNN.fit ops p Xd y).2 = (PBNN.fit ops p Xd y).1 := rfl
